import Mathlib

/-!
Shallow embedding of `src/elfparser.rs` (avrvm ELF header parser) and proofs
about it.

Modelling conventions:
* Bytes are `Nat` values; a stream read from the opened file is a `List Nat`
  whose elements are below 256 (hypotheses state the bound where a proof
  needs it).
* Rust `Result<T>` values produced inside the parser become
  `Except ElfError T`.  The distinct `io::Error` values the Rust code can
  construct are mirrored by the constructors of `ElfError`:
  `Truncated` for the `UnexpectedEof` error of `read_exact`,
  `InvalidField f` for the `Unrecognized ...` errors of the field decoders,
  `UnresolvedByteOrder` for the `Cannot proceed with unknown ElfEndianness`
  error of `read_u16`/`read_u32`, and `IoFailure` for an underlying
  transport error (which the list model never produces).  `BadMagic` is the
  spec's name for a magic-mismatch error; the Rust code never constructs
  such an error value, it uses `assert_eq!` instead (see `ParseOutcome`).
* Rust panics are observable by the caller and distinct from returned
  errors, so the overall outcome of `read_elf_header` is a three-way
  `ParseOutcome`: a header, a returned error, or a panic.  The two panic
  sites in the source are the `assert_eq!` magic checks and the
  `f.unwrap()` on the result of `File::open`.
* `reader.read(&mut id)` in the source is `Read::read`, not `read_exact`:
  it ignores the returned byte count, so for a stream shorter than 16
  bytes the tail of the `id` buffer keeps its `[0; 16]` initialisation.
  `stream.getD i 0` models exactly this: byte `i` of the stream, or 0 past
  the end.  The bytes after the identification block are `stream.drop 16`.
-/

/-- Field names carried by `InvalidField`, identifying which decoder
rejected its raw value (the Rust code carries the same information in the
message string of `Error::new`). -/
inductive FieldName
  | elfClass
  | elfEndianness
  | elfVersion
  | elfFileType
deriving DecidableEq

/-- Error taxonomy of the parser (spec section 7), with the mapping to the
`io::Error` values of `src/elfparser.rs` described in the header comment. -/
inductive ElfError
  | IoFailure
  | Truncated
  | BadMagic
  | InvalidField (f : FieldName)
  | UnresolvedByteOrder
deriving DecidableEq

/-- Panic sites of `read_elf_header`: the four `assert_eq!` magic checks
(index of the magic byte that mismatched) and the `unwrap` of the
`File::open` result. -/
inductive PanicKind
  | assertMagicFail (i : Nat)
  | unwrapOpenFail
deriving DecidableEq

/-- Mirrors `enum ElfClass` of the source. -/
inductive ElfClass
  | NoClass
  | Bit32
  | Bit64
deriving DecidableEq

/-- Mirrors `enum ElfEndianness` of the source. -/
inductive ElfEndianness
  | Unknown
  | Little
  | Big
deriving DecidableEq

/-- Mirrors `enum ElfVersion` of the source. -/
inductive ElfVersion
  | Invalid
  | Current
deriving DecidableEq

/-- Mirrors `enum ElfFileType` of the source. -/
inductive ElfFileType
  | Unknown
  | Relocatable
  | Executable
  | SharedObject
  | Core
  | ProcessorSpecific (x : Nat)
deriving DecidableEq

/-- Mirrors `enum ElfMachine` of the source. -/
inductive ElfMachine
  | NoMachine
  | M32
  | SPARC
  | I386
  | M68K
  | M88K
  | I860
  | MIPS
  | Processor (x : Nat)
deriving DecidableEq

/-- Mirrors `struct ElfHeader` of the source.  Numeric fields are `Nat`
(u32 or u16 in the source; all values assigned stay in range). -/
structure ElfHeader where
  «class» : ElfClass
  endianness : ElfEndianness
  ident_version : ElfVersion
  filetype : ElfFileType
  machine : ElfMachine
  version : ElfVersion
  entry : Nat
  phoff : Nat
  e_shoff : Nat
  e_flags : Nat
  e_ehsize : Nat
  e_phentsize : Nat
  e_phnum : Nat
  e_shentsize : Nat
  e_shnum : Nat
  e_shstrndx : Nat
deriving DecidableEq

/-- Overall outcome of one parse: the Rust caller can observe a returned
`Ok(header)`, a returned `Err(e)`, or a panic. -/
inductive ParseOutcome
  | ok (h : ElfHeader)
  | err (e : ElfError)
  | panic (p : PanicKind)
deriving DecidableEq

/-- Mirrors `get_elf_class`. -/
def get_elf_class (byte : Nat) : Except ElfError ElfClass :=
  match byte with
  | 0 => .ok .NoClass
  | 1 => .ok .Bit32
  | 2 => .ok .Bit64
  | _ => .error (.InvalidField .elfClass)

/-- Mirrors `get_elf_endianness`.  Note that 0 decodes successfully to
`Unknown`; only values above 2 are rejected. -/
def get_elf_endianness (byte : Nat) : Except ElfError ElfEndianness :=
  match byte with
  | 0 => .ok .Unknown
  | 1 => .ok .Little
  | 2 => .ok .Big
  | _ => .error (.InvalidField .elfEndianness)

/-- Mirrors `get_elf_ident_version`. -/
def get_elf_ident_version (byte : Nat) : Except ElfError ElfVersion :=
  match byte with
  | 0 => .ok .Invalid
  | 1 => .ok .Current
  | _ => .error (.InvalidField .elfVersion)

/-- Mirrors `get_elf_filetype`: the `x @ 0xff00 ... 0xffff` range pattern
of the source (inclusive on both ends) becomes an explicit range test. -/
def get_elf_filetype (data : Nat) : Except ElfError ElfFileType :=
  match data with
  | 0 => .ok .Unknown
  | 1 => .ok .Relocatable
  | 2 => .ok .Executable
  | 3 => .ok .SharedObject
  | 4 => .ok .Core
  | x => if 0xff00 ≤ x ∧ x ≤ 0xffff then .ok (.ProcessorSpecific x)
         else .error (.InvalidField .elfFileType)

/-- Mirrors `get_elf_machine`: the `x @ _` catch-all of the source means
every unmatched value succeeds as `Processor(x)`. -/
def get_elf_machine (data : Nat) : Except ElfError ElfMachine :=
  match data with
  | 0 => .ok .NoMachine
  | 1 => .ok .M32
  | 2 => .ok .SPARC
  | 3 => .ok .I386
  | 4 => .ok .M68K
  | 5 => .ok .M88K
  | 6 => .ok .I860
  | 7 => .ok .MIPS
  | x => .ok (.Processor x)

/-- Mirrors `get_elf_version`. -/
def get_elf_version (data : Nat) : Except ElfError ElfVersion :=
  match data with
  | 0 => .ok .Invalid
  | 1 => .ok .Current
  | _ => .error (.InvalidField .elfVersion)

/-- Mirrors `Read::read_exact(&mut buf)` on a list-backed stream: returns
the first `n` bytes and the rest, or the `UnexpectedEof` error
(`Truncated`) when fewer than `n` bytes remain. -/
def read_exact (n : Nat) (s : List Nat) : Except ElfError (List Nat × List Nat) :=
  if n ≤ s.length then .ok (s.take n, s.drop n) else .error .Truncated

/-- Mirrors `ElfReader::read_u16`: reads two bytes with `read_exact`, then
combines them according to the endianness, exactly as the source writes it
(`(buf[1] as u16) << 8 | (buf[0] as u16)` for Little, bytes swapped for
Big), or fails with `UnresolvedByteOrder` when the endianness is
`Unknown`. -/
def read_u16 (en : ElfEndianness) (s : List Nat) : Except ElfError (Nat × List Nat) :=
  match read_exact 2 s with
  | .error e => .error e
  | .ok (buf, rest) =>
    match en with
    | .Unknown => .error .UnresolvedByteOrder
    | .Little => .ok (((buf.getD 1 0) <<< 8) ||| (buf.getD 0 0), rest)
    | .Big => .ok (((buf.getD 0 0) <<< 8) ||| (buf.getD 1 0), rest)

/-- Mirrors `ElfReader::read_u32`: four bytes, combined exactly as the
source writes it. -/
def read_u32 (en : ElfEndianness) (s : List Nat) : Except ElfError (Nat × List Nat) :=
  match read_exact 4 s with
  | .error e => .error e
  | .ok (buf, rest) =>
    match en with
    | .Unknown => .error .UnresolvedByteOrder
    | .Little =>
      .ok (((buf.getD 3 0) <<< 24) ||| ((buf.getD 2 0) <<< 16) |||
           ((buf.getD 1 0) <<< 8) ||| (buf.getD 0 0), rest)
    | .Big =>
      .ok (((buf.getD 0 0) <<< 24) ||| ((buf.getD 1 0) <<< 16) |||
           ((buf.getD 2 0) <<< 8) ||| (buf.getD 3 0), rest)

/-- The `ElfReader` block of `read_elf_header`: the sequence of `try!`-ed
reads and decodes after the identification block, on the remaining stream
`s`.  The header is assembled from the decoded fields; the fields never
assigned by the source keep their `0` initialisation. -/
def read_elf_fields (c : ElfClass) (en : ElfEndianness) (iv : ElfVersion)
    (s : List Nat) : Except ElfError ElfHeader :=
  match read_u16 en s with
  | .error e => .error e
  | .ok (ftraw, s1) =>
    match get_elf_filetype ftraw with
    | .error e => .error e
    | .ok ft =>
      match read_u16 en s1 with
      | .error e => .error e
      | .ok (mraw, s2) =>
        match get_elf_machine mraw with
        | .error e => .error e
        | .ok m =>
          match read_u32 en s2 with
          | .error e => .error e
          | .ok (vraw, s3) =>
            match get_elf_version vraw with
            | .error e => .error e
            | .ok v =>
              match read_u32 en s3 with
              | .error e => .error e
              | .ok (entry, s4) =>
                match read_u32 en s4 with
                | .error e => .error e
                | .ok (phoff, _) =>
                  .ok { «class» := c, endianness := en, ident_version := iv,
                        filetype := ft, machine := m, version := v,
                        entry := entry, phoff := phoff,
                        e_shoff := 0, e_flags := 0, e_ehsize := 0,
                        e_phentsize := 0, e_phnum := 0, e_shentsize := 0,
                        e_shnum := 0, e_shstrndx := 0 }

/-- The `try!`-ed decoding of identification bytes 4, 5 and 6 followed by
the `ElfReader` block of `read_elf_header`: `b4`, `b5`, `b6` are the
class, byte-order and ident-version bytes of the `id` buffer and `rest`
is the stream after the identification block. -/
def parse_after_magic (b4 b5 b6 : Nat) (rest : List Nat) : ParseOutcome :=
  match get_elf_class b4 with
  | .error e => .err e
  | .ok c =>
    match get_elf_endianness b5 with
    | .error e => .err e
    | .ok en =>
      match get_elf_ident_version b6 with
      | .error e => .err e
      | .ok iv =>
        match read_elf_fields c en iv rest with
        | .error e => .err e
        | .ok h => .ok h

/-- Mirrors the body of `read_elf_header` after the file is opened: the
16-byte `id` buffer is filled by `reader.read` (byte `i` is
`stream.getD i 0`, see the header comment), the four `assert_eq!` magic
checks panic at the first mismatching byte, then the rest of the parse
runs on bytes 4, 5, 6 and the stream after the identification block. -/
def read_elf_header_stream (stream : List Nat) : ParseOutcome :=
  if stream.getD 0 0 = 0x7F then
    if stream.getD 1 0 = 0x45 then
      if stream.getD 2 0 = 0x4C then
        if stream.getD 3 0 = 0x46 then
          parse_after_magic (stream.getD 4 0) (stream.getD 5 0) (stream.getD 6 0)
            (stream.drop 16)
        else .panic (.assertMagicFail 3)
      else .panic (.assertMagicFail 2)
    else .panic (.assertMagicFail 1)
  else .panic (.assertMagicFail 0)

/-- Kinds of `io::Error` that `File::open` can produce. -/
inductive IoErr
  | notFound
  | permissionDenied
  | otherIo
deriving DecidableEq

/-- Mirrors `read_elf_header` as a whole.  Its argument is the result of
`File::open`: on an open error the source calls `f.unwrap()`, which
panics; on success the stream is parsed. -/
def read_elf_header (openResult : Except IoErr (List Nat)) : ParseOutcome :=
  match openResult with
  | .error _ => .panic .unwrapOpenFail
  | .ok stream => read_elf_header_stream stream

/-- The input stream of the end-to-end scenario: valid magic, class 1,
byte order 1 (little), ident-version 1, nine padding bytes, then
little-endian object type 2, machine 83, version 1, entry 0 and
program-header offset 0x34. -/
def c7Stream : List Nat :=
  [0x7F, 0x45, 0x4C, 0x46, 1, 1, 1, 0, 0, 0, 0, 0, 0, 0, 0, 0,
   2, 0, 83, 0, 1, 0, 0, 0, 0, 0, 0, 0, 0x34, 0, 0, 0]

/-- C7: on the concrete 32-bit little-endian executable stream
(magic `7F 45 4C 46`, class 1, order 1, ident-version 1, object type 2,
machine 83, version 1, entry 0, program-header offset 0x34),
`read_elf_header` succeeds with class Bit32, endianness Little,
ident-version Current, filetype Executable, machine Processor 83, version
Current and entry 0. -/
theorem c7_end_to_end :
    read_elf_header (.ok c7Stream) =
      .ok { «class» := .Bit32, endianness := .Little, ident_version := .Current,
            filetype := .Executable, machine := .Processor 83, version := .Current,
            entry := 0, phoff := 0x34,
            e_shoff := 0, e_flags := 0, e_ehsize := 0, e_phentsize := 0,
            e_phnum := 0, e_shentsize := 0, e_shnum := 0, e_shstrndx := 0 } := by
  decide

/-- Combining a shifted value with a small value by bitwise or is plain
addition: the arithmetic content of the `<< 8 |`-style byte combines in
`read_u16` and `read_u32`. -/
theorem shiftLeft_lor_eq_add (a b n : Nat) (hb : b < 2 ^ n) :
    (a <<< n) ||| b = a * 2 ^ n + b := by
  apply Nat.eq_of_testBit_eq
  intro k
  rw [Nat.testBit_lor, Nat.testBit_shiftLeft]
  rcases Nat.lt_or_ge k n with h | h
  · have hd : ¬ (n ≤ k) := Nat.not_le.mpr h
    simp only [hd, decide_eq_false, Bool.false_and, Bool.false_or]
    have hmod : (a * 2 ^ n + b) % 2 ^ n = b := by
      rw [Nat.mul_comm a (2 ^ n), Nat.mul_add_mod, Nat.mod_eq_of_lt hb]
    have ht := Nat.testBit_mod_two_pow (a * 2 ^ n + b) n k
    rw [hmod] at ht
    rw [ht]
    simp [h]
  · have hbk : b.testBit k = false :=
      Nat.testBit_eq_false_of_lt (lt_of_lt_of_le hb (Nat.pow_le_pow_right (by norm_num) h))
    simp only [h, decide_eq_true_eq, Bool.or_false, hbk, decide_eq_true, Bool.true_and]
    have hk : k = n + (k - n) := by omega
    rw [hk]
    have hsr : ((a * 2 ^ n + b) >>> n).testBit (k - n) = (a * 2 ^ n + b).testBit (n + (k - n)) :=
      Nat.testBit_shiftRight _
    rw [← hsr]
    have hdiv : (a * 2 ^ n + b) >>> n = a := by
      rw [Nat.shiftRight_eq_div_pow]
      rw [Nat.mul_comm, Nat.mul_add_div (Nat.two_pow_pos n), Nat.div_eq_of_lt hb, Nat.add_zero]
    rw [hdiv, Nat.add_sub_cancel_left]

/-- On a two-byte stream, little-endian `read_u16` puts the first byte in
the low position. -/
theorem read_u16_little_eval (b0 b1 : Nat) (h0 : b0 < 256) :
    read_u16 .Little [b0, b1] = .ok (b0 + b1 * 256, []) := by
  show Except.ok ((b1 <<< 8) ||| b0, ([] : List Nat)) = _
  rw [shiftLeft_lor_eq_add b1 b0 8 (by norm_num; omega)]
  have hv : b1 * 2 ^ 8 + b0 = b0 + b1 * 256 := by
    rw [show (2 : Nat) ^ 8 = 256 by norm_num]; omega
  rw [hv]

/-- On a two-byte stream, big-endian `read_u16` puts the first byte in
the high position. -/
theorem read_u16_big_eval (b0 b1 : Nat) (h1 : b1 < 256) :
    read_u16 .Big [b0, b1] = .ok (b1 + b0 * 256, []) := by
  show Except.ok ((b0 <<< 8) ||| b1, ([] : List Nat)) = _
  rw [shiftLeft_lor_eq_add b0 b1 8 (by norm_num; omega)]
  have hv : b0 * 2 ^ 8 + b1 = b1 + b0 * 256 := by
    rw [show (2 : Nat) ^ 8 = 256 by norm_num]; omega
  rw [hv]

/-- The left-associated four-byte or-combine of `read_u32`, rewritten as
plain positional arithmetic. -/
theorem combine_u32_eq (x3 x2 x1 x0 : Nat)
    (h0 : x0 < 256) (h1 : x1 < 256) (h2 : x2 < 256) :
    (x3 <<< 24) ||| (x2 <<< 16) ||| (x1 <<< 8) ||| x0
      = x0 + x1 * 256 + x2 * 65536 + x3 * 16777216 := by
  rw [Nat.lor_assoc, Nat.lor_assoc]
  rw [shiftLeft_lor_eq_add x1 x0 8 (by norm_num; omega)]
  rw [shiftLeft_lor_eq_add x2 (x1 * 2 ^ 8 + x0) 16
      (by rw [show (2 : Nat) ^ 8 = 256 by norm_num, show (2 : Nat) ^ 16 = 65536 by norm_num]
          omega)]
  rw [shiftLeft_lor_eq_add x3 (x2 * 2 ^ 16 + (x1 * 2 ^ 8 + x0)) 24
      (by rw [show (2 : Nat) ^ 8 = 256 by norm_num, show (2 : Nat) ^ 16 = 65536 by norm_num,
              show (2 : Nat) ^ 24 = 16777216 by norm_num]
          omega)]
  rw [show (2 : Nat) ^ 8 = 256 by norm_num, show (2 : Nat) ^ 16 = 65536 by norm_num,
      show (2 : Nat) ^ 24 = 16777216 by norm_num]
  omega

/-- On a four-byte stream, little-endian `read_u32` reads the first byte
as least significant. -/
theorem read_u32_little_eval (b0 b1 b2 b3 : Nat)
    (h0 : b0 < 256) (h1 : b1 < 256) (h2 : b2 < 256) :
    read_u32 .Little [b0, b1, b2, b3]
      = .ok (b0 + b1 * 256 + b2 * 65536 + b3 * 16777216, []) := by
  show Except.ok ((b3 <<< 24) ||| (b2 <<< 16) ||| (b1 <<< 8) ||| b0, ([] : List Nat)) = _
  rw [combine_u32_eq b3 b2 b1 b0 h0 h1 h2]

/-- On a four-byte stream, big-endian `read_u32` reads the first byte as
most significant. -/
theorem read_u32_big_eval (b0 b1 b2 b3 : Nat)
    (h1 : b1 < 256) (h2 : b2 < 256) (h3 : b3 < 256) :
    read_u32 .Big [b0, b1, b2, b3]
      = .ok (b3 + b2 * 256 + b1 * 65536 + b0 * 16777216, []) := by
  show Except.ok ((b0 <<< 24) ||| (b1 <<< 16) ||| (b2 <<< 8) ||| b3, ([] : List Nat)) = _
  rw [combine_u32_eq b0 b1 b2 b3 h3 h2 h1]

/-- C6: for one multi-byte field (2 bytes for `read_u16`, 4 bytes for
`read_u32`), Little order treats the first byte read as least significant
and Big treats it as most significant; consequently the Little decoding of
a byte sequence equals the Big decoding of the reversed sequence, and on
the same sequence the two decodings agree exactly when the sequence is
palindromic. -/
theorem c6_byte_order (b0 b1 b2 b3 : Nat)
    (h0 : b0 < 256) (h1 : b1 < 256) (h2 : b2 < 256) (h3 : b3 < 256) :
    (read_u16 .Little [b0, b1] = .ok (b0 + b1 * 256, []) ∧
     read_u16 .Big [b0, b1] = .ok (b1 + b0 * 256, []) ∧
     read_u32 .Little [b0, b1, b2, b3]
       = .ok (b0 + b1 * 256 + b2 * 65536 + b3 * 16777216, []) ∧
     read_u32 .Big [b0, b1, b2, b3]
       = .ok (b3 + b2 * 256 + b1 * 65536 + b0 * 16777216, [])) ∧
    (read_u16 .Little [b0, b1] = read_u16 .Big [b1, b0] ∧
     read_u32 .Little [b0, b1, b2, b3] = read_u32 .Big [b3, b2, b1, b0]) ∧
    ((read_u16 .Little [b0, b1] = read_u16 .Big [b0, b1] ↔ b0 = b1) ∧
     (read_u32 .Little [b0, b1, b2, b3] = read_u32 .Big [b0, b1, b2, b3]
       ↔ (b0 = b3 ∧ b1 = b2))) := by
  refine ⟨⟨read_u16_little_eval b0 b1 h0, read_u16_big_eval b0 b1 h1,
          read_u32_little_eval b0 b1 b2 b3 h0 h1 h2,
          read_u32_big_eval b0 b1 b2 b3 h1 h2 h3⟩, ⟨?_, ?_⟩, ⟨?_, ?_⟩⟩
  · rw [read_u16_little_eval b0 b1 h0, read_u16_big_eval b1 b0 h0]
  · rw [read_u32_little_eval b0 b1 b2 b3 h0 h1 h2,
        read_u32_big_eval b3 b2 b1 b0 h2 h1 h0]
  · rw [read_u16_little_eval b0 b1 h0, read_u16_big_eval b0 b1 h1]
    simp only [Except.ok.injEq, Prod.mk.injEq, and_true]
    omega
  · rw [read_u32_little_eval b0 b1 b2 b3 h0 h1 h2,
        read_u32_big_eval b0 b1 b2 b3 h1 h2 h3]
    simp only [Except.ok.injEq, Prod.mk.injEq, and_true]
    omega

/-- Witness for C6 at the concrete bytes 1, 2, 3, 4. -/
theorem c6_witness :
    ((1 : Nat) < 256 ∧ (2 : Nat) < 256 ∧ (3 : Nat) < 256 ∧ (4 : Nat) < 256) ∧
    read_u16 .Little [1, 2] = read_u16 .Big [2, 1] :=
  ⟨⟨by norm_num, by norm_num, by norm_num, by norm_num⟩,
   (c6_byte_order 1 2 3 4 (by norm_num) (by norm_num) (by norm_num)
     (by norm_num)).2.1.1⟩

/-- C4: object-type decoding is partial in exactly the stated way: raw
values 0 to 4 map to the named variants, the inclusive range
0xFF00 to 0xFFFF maps to `ProcessorSpecific` carrying the raw value, and
every other 16-bit value fails with `InvalidField`. -/
theorem c4_filetype_decoding (d : Nat) (hd : d < 65536) :
    (d = 0 → get_elf_filetype d = .ok .Unknown) ∧
    (d = 1 → get_elf_filetype d = .ok .Relocatable) ∧
    (d = 2 → get_elf_filetype d = .ok .Executable) ∧
    (d = 3 → get_elf_filetype d = .ok .SharedObject) ∧
    (d = 4 → get_elf_filetype d = .ok .Core) ∧
    (0xff00 ≤ d → get_elf_filetype d = .ok (.ProcessorSpecific d)) ∧
    (4 < d → d < 0xff00 → get_elf_filetype d = .error (.InvalidField .elfFileType)) := by
  refine ⟨fun h => by subst h; rfl, fun h => by subst h; rfl, fun h => by subst h; rfl,
          fun h => by subst h; rfl, fun h => by subst h; rfl, ?_, ?_⟩
  · intro h
    rcases d with _|_|_|_|_|e
    · omega
    · omega
    · omega
    · omega
    · omega
    · simp only [get_elf_filetype]
      rw [if_pos ⟨by omega, by omega⟩]
  · intro h4 hf
    rcases d with _|_|_|_|_|e
    · omega
    · omega
    · omega
    · omega
    · omega
    · simp only [get_elf_filetype]
      rw [if_neg]
      omega

/-- Witness for C4 at the concrete raw value 0xFF42. -/
theorem c4_witness :
    (0xff42 : Nat) < 65536 ∧ get_elf_filetype 0xff42 = .ok (.ProcessorSpecific 0xff42) :=
  ⟨by norm_num, (c4_filetype_decoding 0xff42 (by norm_num)).2.2.2.2.2.1 (by norm_num)⟩

/-- C5: machine-type decoding is total: every 16-bit raw value succeeds,
0 to 7 as the named variants and everything else as `Processor` carrying
the raw value; no input produces an error. -/
theorem c5_machine_total (d : Nat) (hd : d < 65536) :
    (∃ m, get_elf_machine d = .ok m) ∧
    (∀ e, get_elf_machine d ≠ .error e) ∧
    (d = 0 → get_elf_machine d = .ok .NoMachine) ∧
    (d = 1 → get_elf_machine d = .ok .M32) ∧
    (d = 2 → get_elf_machine d = .ok .SPARC) ∧
    (d = 3 → get_elf_machine d = .ok .I386) ∧
    (d = 4 → get_elf_machine d = .ok .M68K) ∧
    (d = 5 → get_elf_machine d = .ok .M88K) ∧
    (d = 6 → get_elf_machine d = .ok .I860) ∧
    (d = 7 → get_elf_machine d = .ok .MIPS) ∧
    (8 ≤ d → get_elf_machine d = .ok (.Processor d)) := by
  have hok : ∃ m, get_elf_machine d = .ok m := by
    rcases d with _|_|_|_|_|_|_|_|e <;> exact ⟨_, rfl⟩
  obtain ⟨m, hm⟩ := hok
  refine ⟨⟨m, hm⟩, ?_, fun h => by subst h; rfl, fun h => by subst h; rfl,
          fun h => by subst h; rfl, fun h => by subst h; rfl, fun h => by subst h; rfl,
          fun h => by subst h; rfl, fun h => by subst h; rfl, fun h => by subst h; rfl, ?_⟩
  · intro e
    rw [hm]
    simp
  · intro h8
    rcases d with _|_|_|_|_|_|_|_|e
    · omega
    · omega
    · omega
    · omega
    · omega
    · omega
    · omega
    · omega
    · rfl

/-- Witness for C5 at the concrete raw value 83. -/
theorem c5_witness :
    (83 : Nat) < 65536 ∧ get_elf_machine 83 = .ok (.Processor 83) :=
  ⟨by norm_num, (c5_machine_total 83 (by norm_num)).2.2.2.2.2.2.2.2.2.2 (by norm_num)⟩

/-- A multi-byte read with unresolved byte order fails with
`UnresolvedByteOrder` whenever at least two bytes remain (the bytes are
read first, the endianness is only consulted afterwards). -/
theorem read_u16_unknown (s : List Nat) (h : 2 ≤ s.length) :
    read_u16 .Unknown s = .error .UnresolvedByteOrder := by
  unfold read_u16 read_exact
  rw [if_pos h]

/-- The field-reading block fails with `UnresolvedByteOrder` on an
`Unknown` endianness as soon as the first `read_u16` runs. -/
theorem read_elf_fields_unknown (c : ElfClass) (iv : ElfVersion) (s : List Nat)
    (h : 2 ≤ s.length) :
    read_elf_fields c .Unknown iv s = .error .UnresolvedByteOrder := by
  unfold read_elf_fields
  rw [read_u16_unknown s h]

/-- The input stream of the C1 counterexample: valid magic, class 1,
byte-order byte 0, ident-version 1, padding to 16 bytes, then two more
bytes for the first multi-byte read. -/
def c1Stream : List Nat :=
  [0x7F, 0x45, 0x4C, 0x46, 1, 0, 1, 0, 0, 0, 0, 0, 0, 0, 0, 0, 2, 0]

/-- Counterexample to C1: on a stream whose byte-order identification
byte is 0, the parse returns `UnresolvedByteOrder` to the caller, not
`InvalidField` on the byte-order field. -/
theorem c1_counterexample :
    read_elf_header (.ok c1Stream) = .err .UnresolvedByteOrder ∧
    read_elf_header (.ok c1Stream) ≠ .err (.InvalidField .elfEndianness) := by
  decide

/-- C1 as amended: a byte-order byte of 0 decodes successfully to
`Unknown` (it is not rejected in step 3); with valid magic, a valid class
byte and a valid ident-version byte, the Scalar Reader is then built with
unresolved byte order and the first multi-byte read fails with
`UnresolvedByteOrder`, which surfaces to the caller whenever at least two
bytes follow the identification block. -/
theorem c1_unresolved_surfaces (s : List Nat) (c : ElfClass) (iv : ElfVersion)
    (hm0 : s.getD 0 0 = 0x7F) (hm1 : s.getD 1 0 = 0x45)
    (hm2 : s.getD 2 0 = 0x4C) (hm3 : s.getD 3 0 = 0x46)
    (hc : get_elf_class (s.getD 4 0) = .ok c)
    (he : s.getD 5 0 = 0)
    (hv : get_elf_ident_version (s.getD 6 0) = .ok iv)
    (hlen : 18 ≤ s.length) :
    get_elf_endianness 0 = .ok .Unknown ∧
    read_elf_header (.ok s) = .err .UnresolvedByteOrder := by
  refine ⟨rfl, ?_⟩
  have hdlen : 2 ≤ (s.drop 16).length := by
    rw [List.length_drop]; omega
  show read_elf_header_stream s = _
  unfold read_elf_header_stream
  rw [if_pos hm0, if_pos hm1, if_pos hm2, if_pos hm3, he]
  simp only [parse_after_magic, hc, hv, get_elf_endianness,
             read_elf_fields_unknown c iv (s.drop 16) hdlen]

/-- Witness for C1 as amended, at the concrete stream `c1Stream`. -/
theorem c1_witness :
    read_elf_header (.ok c1Stream) = .err .UnresolvedByteOrder :=
  (c1_unresolved_surfaces c1Stream .Bit32 .Current rfl rfl rfl rfl rfl rfl rfl
    (by norm_num [c1Stream])).2

/-- C2 failing inputs evaluated: on the empty stream the count returned
by `read` is ignored, the `id` buffer stays zero-filled and the parse
panics on the first magic assertion instead of failing with `Truncated`;
on a 5-byte stream with valid magic and class byte 7 the parse fails with
`InvalidField`, which the claim also rules out. -/
theorem c2_failing_input :
    read_elf_header (.ok []) = .panic (.assertMagicFail 0) ∧
    read_elf_header (.ok []) ≠ .err .Truncated ∧
    read_elf_header (.ok [0x7F, 0x45, 0x4C, 0x46, 7])
      = .err (.InvalidField .elfClass) := by
  decide

/-- Counterexample to C8: when `File::open` fails, `read_elf_header`
panics on the `unwrap` instead of returning the failure as an error. -/
theorem c8_counterexample :
    read_elf_header (.error .permissionDenied) = .panic .unwrapOpenFail ∧
    read_elf_header (.error .permissionDenied) ≠ .err .IoFailure := by
  decide

/-- C8 as amended: for every open failure, `read_elf_header` panics
unwrapping the open result and never returns any error value to the
caller. -/
theorem c8_open_fail_panics (e : IoErr) :
    read_elf_header (.error e) = .panic .unwrapOpenFail ∧
    ∀ e2 : ElfError, read_elf_header (.error e) ≠ .err e2 := by
  exact ⟨rfl, fun e2 => by simp [read_elf_header]⟩

/-- Counterexample to C3: on an all-zero 16-byte stream the parse panics
on the first magic assertion; it does not return a `BadMagic` error. -/
theorem c3_counterexample :
    read_elf_header (.ok (List.replicate 16 0)) = .panic (.assertMagicFail 0) ∧
    read_elf_header (.ok (List.replicate 16 0)) ≠ .err .BadMagic := by
  decide

/-- C3 as amended: for any stream of at least 16 bytes whose first 4
bytes differ from the magic signature, the parse aborts by panicking on
the first mismatching `assert_eq!` (not by returning a `BadMagic` error);
the outcome depends only on the first 4 bytes, so the remaining bytes are
never inspected, and no error value is returned. -/
theorem c3_bad_magic_panics (s : List Nat) (_hlen : 16 ≤ s.length)
    (hbad : ¬ (s.getD 0 0 = 0x7F ∧ s.getD 1 0 = 0x45 ∧
               s.getD 2 0 = 0x4C ∧ s.getD 3 0 = 0x46)) :
    (∃ i, i < 4 ∧ read_elf_header (.ok s) = .panic (.assertMagicFail i)) ∧
    (∀ t : List Nat, t.getD 0 0 = s.getD 0 0 → t.getD 1 0 = s.getD 1 0 →
      t.getD 2 0 = s.getD 2 0 → t.getD 3 0 = s.getD 3 0 →
      read_elf_header (.ok t) = read_elf_header (.ok s)) ∧
    (∀ e, read_elf_header (.ok s) ≠ .err e) := by
  by_cases h0 : s.getD 0 0 = 0x7F
  · by_cases h1 : s.getD 1 0 = 0x45
    · by_cases h2 : s.getD 2 0 = 0x4C
      · by_cases h3 : s.getD 3 0 = 0x46
        · exact absurd ⟨h0, h1, h2, h3⟩ hbad
        · have hs : read_elf_header (.ok s) = .panic (.assertMagicFail 3) := by
            show read_elf_header_stream s = _
            unfold read_elf_header_stream
            rw [if_pos h0, if_pos h1, if_pos h2, if_neg h3]
          refine ⟨⟨3, by norm_num, hs⟩, ?_, ?_⟩
          · intro t ht0 ht1 ht2 ht3
            show read_elf_header_stream t = _
            unfold read_elf_header_stream
            rw [ht0, ht1, ht2, ht3, if_pos h0, if_pos h1, if_pos h2, if_neg h3, hs]
          · intro e
            rw [hs]
            simp
      · have hs : read_elf_header (.ok s) = .panic (.assertMagicFail 2) := by
          show read_elf_header_stream s = _
          unfold read_elf_header_stream
          rw [if_pos h0, if_pos h1, if_neg h2]
        refine ⟨⟨2, by norm_num, hs⟩, ?_, ?_⟩
        · intro t ht0 ht1 ht2 ht3
          show read_elf_header_stream t = _
          unfold read_elf_header_stream
          rw [ht0, ht1, ht2, if_pos h0, if_pos h1, if_neg h2, hs]
        · intro e
          rw [hs]
          simp
    · have hs : read_elf_header (.ok s) = .panic (.assertMagicFail 1) := by
        show read_elf_header_stream s = _
        unfold read_elf_header_stream
        rw [if_pos h0, if_neg h1]
      refine ⟨⟨1, by norm_num, hs⟩, ?_, ?_⟩
      · intro t ht0 ht1 ht2 ht3
        show read_elf_header_stream t = _
        unfold read_elf_header_stream
        rw [ht0, ht1, if_pos h0, if_neg h1, hs]
      · intro e
        rw [hs]
        simp
  · have hs : read_elf_header (.ok s) = .panic (.assertMagicFail 0) := by
      show read_elf_header_stream s = _
      unfold read_elf_header_stream
      rw [if_neg h0]
    refine ⟨⟨0, by norm_num, hs⟩, ?_, ?_⟩
    · intro t ht0 ht1 ht2 ht3
      show read_elf_header_stream t = _
      unfold read_elf_header_stream
      rw [ht0, if_neg h0, hs]
    · intro e
      rw [hs]
      simp

/-- Witness for C3 as amended, at the all-zero 16-byte stream. -/
theorem c3_witness :
    16 ≤ (List.replicate 16 0).length ∧
    ∃ i, i < 4 ∧
      read_elf_header (.ok (List.replicate (16 : Nat) (0 : Nat)))
        = .panic (.assertMagicFail i) :=
  ⟨by norm_num,
   (c3_bad_magic_panics (List.replicate 16 0) (by norm_num) (by decide)).1⟩

/-- Bytes at positions below `n` agree when the length-`n` prefixes
agree. -/
theorem getD_eq_of_take_eq (s t : List Nat) (n i : Nat)
    (h : s.take n = t.take n) (hi : i < n) :
    s.getD i 0 = t.getD i 0 := by
  rw [List.getD_eq_getElem?_getD, List.getD_eq_getElem?_getD]
  have hs : (List.take n s)[i]? = s[i]? := by
    rw [List.getElem?_take, if_pos hi]
  have ht : (List.take n t)[i]? = t[i]? := by
    rw [List.getElem?_take, if_pos hi]
  rw [← hs, ← ht, h]

/-- C9: the parse result does not depend on the reserved / padding bytes
of the identification block (offsets 7 through 15): two streams that
agree on bytes 0 to 6 and on everything from offset 16 on produce equal
outcomes. -/
theorem c9_padding_independent (s t : List Nat)
    (h7 : s.take 7 = t.take 7) (h16 : s.drop 16 = t.drop 16) :
    read_elf_header (.ok s) = read_elf_header (.ok t) := by
  have e0 := getD_eq_of_take_eq s t 7 0 h7 (by norm_num)
  have e1 := getD_eq_of_take_eq s t 7 1 h7 (by norm_num)
  have e2 := getD_eq_of_take_eq s t 7 2 h7 (by norm_num)
  have e3 := getD_eq_of_take_eq s t 7 3 h7 (by norm_num)
  have e4 := getD_eq_of_take_eq s t 7 4 h7 (by norm_num)
  have e5 := getD_eq_of_take_eq s t 7 5 h7 (by norm_num)
  have e6 := getD_eq_of_take_eq s t 7 6 h7 (by norm_num)
  show read_elf_header_stream s = read_elf_header_stream t
  unfold read_elf_header_stream
  rw [e0, e1, e2, e3, e4, e5, e6, h16]

/-- Witness for C9: two 17-byte streams differing only in padding bytes
8 and 9 parse to the same outcome. -/
theorem c9_witness :
    ([0x7F, 0x45, 0x4C, 0x46, 1, 1, 1, 0, 5, 6, 0, 0, 0, 0, 0, 0, 9] : List Nat).take 7
      = ([0x7F, 0x45, 0x4C, 0x46, 1, 1, 1, 0, 7, 8, 0, 0, 0, 0, 0, 0, 9] : List Nat).take 7 ∧
    read_elf_header (.ok [0x7F, 0x45, 0x4C, 0x46, 1, 1, 1, 0, 5, 6, 0, 0, 0, 0, 0, 0, 9])
      = read_elf_header (.ok [0x7F, 0x45, 0x4C, 0x46, 1, 1, 1, 0, 7, 8, 0, 0, 0, 0, 0, 0, 9]) :=
  ⟨rfl, c9_padding_independent _ _ rfl rfl⟩

/-- A header assembled by `read_elf_fields` keeps the zero initialisation
of every field the source never assigns. -/
theorem read_elf_fields_unparsed (c : ElfClass) (en : ElfEndianness) (iv : ElfVersion)
    (s : List Nat) (h : ElfHeader) (hok : read_elf_fields c en iv s = .ok h) :
    h.e_shoff = 0 ∧ h.e_flags = 0 ∧ h.e_ehsize = 0 ∧ h.e_phentsize = 0 ∧
    h.e_phnum = 0 ∧ h.e_shentsize = 0 ∧ h.e_shnum = 0 ∧ h.e_shstrndx = 0 := by
  unfold read_elf_fields at hok
  cases h1 : read_u16 en s with
  | error e => simp only [h1] at hok; cases hok
  | ok p1 =>
    obtain ⟨ftraw, s1⟩ := p1
    simp only [h1] at hok
    cases h2 : get_elf_filetype ftraw with
    | error e => simp only [h2] at hok; cases hok
    | ok ft =>
      simp only [h2] at hok
      cases h3 : read_u16 en s1 with
      | error e => simp only [h3] at hok; cases hok
      | ok p2 =>
        obtain ⟨mraw, s2⟩ := p2
        simp only [h3] at hok
        cases h4 : get_elf_machine mraw with
        | error e => simp only [h4] at hok; cases hok
        | ok m =>
          simp only [h4] at hok
          cases h5 : read_u32 en s2 with
          | error e => simp only [h5] at hok; cases hok
          | ok p3 =>
            obtain ⟨vraw, s3⟩ := p3
            simp only [h5] at hok
            cases h6 : get_elf_version vraw with
            | error e => simp only [h6] at hok; cases hok
            | ok v =>
              simp only [h6] at hok
              cases h7 : read_u32 en s3 with
              | error e => simp only [h7] at hok; cases hok
              | ok p4 =>
                obtain ⟨entry, s4⟩ := p4
                simp only [h7] at hok
                cases h8 : read_u32 en s4 with
                | error e => simp only [h8] at hok; cases hok
                | ok p5 =>
                  obtain ⟨phoff, s5⟩ := p5
                  simp only [h8] at hok
                  cases hok
                  exact ⟨rfl, rfl, rfl, rfl, rfl, rfl, rfl, rfl⟩

/-- A header produced by the post-magic stage keeps the zero
initialisation of every field the source never assigns. -/
theorem parse_after_magic_unparsed (b4 b5 b6 : Nat) (rest : List Nat) (h : ElfHeader)
    (hok : parse_after_magic b4 b5 b6 rest = .ok h) :
    h.e_shoff = 0 ∧ h.e_flags = 0 ∧ h.e_ehsize = 0 ∧ h.e_phentsize = 0 ∧
    h.e_phnum = 0 ∧ h.e_shentsize = 0 ∧ h.e_shnum = 0 ∧ h.e_shstrndx = 0 := by
  unfold parse_after_magic at hok
  cases hc : get_elf_class b4 with
  | error e => simp only [hc] at hok; cases hok
  | ok c =>
    simp only [hc] at hok
    cases he : get_elf_endianness b5 with
    | error e => simp only [he] at hok; cases hok
    | ok en =>
      simp only [he] at hok
      cases hv : get_elf_ident_version b6 with
      | error e => simp only [hv] at hok; cases hok
      | ok iv =>
        simp only [hv] at hok
        cases hf : read_elf_fields c en iv rest with
        | error e => simp only [hf] at hok; cases hok
        | ok h2 =>
          simp only [hf] at hok
          cases hok
          exact read_elf_fields_unparsed _ _ _ _ _ hf

/-- C10: whenever the parse succeeds, the declared-but-unparsed raw
fields of the returned header (e_shoff, e_flags, e_ehsize, e_phentsize,
e_phnum, e_shentsize, e_shnum, e_shstrndx) are all zero: they keep their
initialisation and are never assigned from the stream. -/
theorem c10_unparsed_fields_zero (r : Except IoErr (List Nat)) (h : ElfHeader)
    (hok : read_elf_header r = .ok h) :
    h.e_shoff = 0 ∧ h.e_flags = 0 ∧ h.e_ehsize = 0 ∧ h.e_phentsize = 0 ∧
    h.e_phnum = 0 ∧ h.e_shentsize = 0 ∧ h.e_shnum = 0 ∧ h.e_shstrndx = 0 := by
  cases r with
  | error e => cases hok
  | ok s =>
    have hok2 : read_elf_header_stream s = .ok h := hok
    unfold read_elf_header_stream at hok2
    split_ifs at hok2
    exact parse_after_magic_unparsed _ _ _ _ _ hok2

/-- The input stream of the C10 witness: a valid little-endian shared
object with machine 7, version 1, entry 9 and program-header offset 2. -/
def c10Stream : List Nat :=
  [0x7F, 0x45, 0x4C, 0x46, 1, 1, 1, 0, 0, 0, 0, 0, 0, 0, 0, 0,
   3, 0, 7, 0, 1, 0, 0, 0, 9, 0, 0, 0, 2, 0, 0, 0]

/-- The header parsed from `c10Stream`. -/
def c10Header : ElfHeader :=
  { «class» := .Bit32, endianness := .Little, ident_version := .Current,
    filetype := .SharedObject, machine := .MIPS, version := .Current,
    entry := 9, phoff := 2,
    e_shoff := 0, e_flags := 0, e_ehsize := 0, e_phentsize := 0,
    e_phnum := 0, e_shentsize := 0, e_shnum := 0, e_shstrndx := 0 }

/-- Witness for C10 at the concrete stream `c10Stream`. -/
theorem c10_witness :
    c10Header.e_shoff = 0 ∧ c10Header.e_flags = 0 ∧ c10Header.e_ehsize = 0 ∧
    c10Header.e_phentsize = 0 ∧ c10Header.e_phnum = 0 ∧ c10Header.e_shentsize = 0 ∧
    c10Header.e_shnum = 0 ∧ c10Header.e_shstrndx = 0 :=
  c10_unparsed_fields_zero (.ok c10Stream) c10Header (by decide)
